import Mathlib

/-!
Shallow embedding of the recording-workflow core of the
radio-stream-recorder-api repository, and proofs about the claims of its
specification.

The embedded modules are:
  * `src/utils/performance_monitor.py`
      (`RequestQueue`, `ResourceMonitor._check_thresholds`,
       `PerformanceMonitor.can_accept_recording`)
  * `src/services/stream_recorder.py`
      (`StreamRecorder._analyze_ffmpeg_error`, `StreamRecorder.record_stream`)
  * `src/services/recording_service.py`
      (`RecordingService._validate_and_register_recording`,
       `RecordingService._recording_context`, `RecordingService.record_show`)

Conventions of the embedding:
  * Python percentage/size floats are modelled as rationals: every comparison
    the code performs on them is an order comparison, which rationals model
    exactly for the inputs considered here.
  * Python dicts keyed by recording id are modelled as association lists in
    insertion order; assignment to an existing key overwrites in place,
    `pop` removes the entry.
  * `datetime.now()` timestamps are threaded as an abstract `Nat` tick where
    the code stores them; elapsed-seconds values derived from wall-clock time
    (step timings, uptime) carry no information for the claims and are
    recorded as `0`.
  * External collaborators (config manager, ffmpeg subprocess, metadata
    processor, transfer service, filesystem probes) are oracles supplied in an
    environment record; each oracle's result type mirrors exactly what the
    orchestrator observes from the collaborator.
-/

namespace RadioRec

/-! ## Association-list model of Python dicts (insertion-ordered) -/

/-- Lookup of a key, mirroring `d[k]` / `k in d`. -/
def alookup {α : Type} : List (String × α) → String → Option α
  | [], _ => none
  | kv :: rest, k => if kv.1 = k then some kv.2 else alookup rest k

/-- `d[k] = v`: overwrite in place if the key exists, else append
(Python 3.7+ dicts preserve insertion order). -/
def ainsert {α : Type} (k : String) (v : α) : List (String × α) → List (String × α)
  | [] => [(k, v)]
  | kv :: rest => if kv.1 = k then (k, v) :: rest else kv :: ainsert k v rest

/-- `d.pop(k, None)` / `del d[k]`: remove the entry for `k` if present. -/
def aerase {α : Type} (k : String) : List (String × α) → List (String × α)
  | [] => []
  | kv :: rest => if kv.1 = k then rest else kv :: aerase k rest

/-- Mutate the value stored under `k` in place, if present. -/
def amodify {α : Type} (k : String) (f : α → α) : List (String × α) → List (String × α)
  | [] => []
  | kv :: rest => if kv.1 = k then (kv.1, f kv.2) :: rest else kv :: amodify k f rest

/-- The keys of the dict, in insertion order. -/
def akeys {α : Type} (l : List (String × α)) : List String := l.map Prod.fst

/-- A `duration_minutes` argument as received over the API boundary: a
Python `int`, or a non-integer numeric value (e.g. a float), which
`isinstance(duration_minutes, int)` rejects while order comparisons on it
still succeed. -/
inductive DurationVal
  | intD (n : Int)
  | floatD (q : ℚ)
deriving DecidableEq, Repr

/-- The numeric value, for the comparisons performed before validation. -/
def DurationVal.toRat : DurationVal → ℚ
  | intD n => (n : ℚ)
  | floatD q => q

/-! ## `performance_monitor.RecordingMetrics` and `RequestQueue` -/

/-- `RecordingMetrics` dataclass (`performance_monitor.py`). The two
`datetime` fields are abstract ticks. -/
structure RecordingMetrics where
  recording_id : String
  show_key : String
  started_at : Nat
  duration_minutes : DurationVal
  current_step : String := "not_started"
  steps_completed : List String := []
  step_timings : List (String × ℚ) := []
  file_sizes : List (String × Int) := []
  error_count : Nat := 0
  last_activity : Nat := 0
deriving DecidableEq, Repr

/-- State of `RequestQueue`. The `asyncio.Queue` is represented by its size
only: the admission logic reads nothing else from it. -/
structure RequestQueue where
  max_concurrent : Nat
  max_queue_size : Nat
  queue_size : Nat
  active : List (String × RecordingMetrics)
deriving DecidableEq, Repr

/-- `RequestQueue.__init__(max_concurrent, max_queue_size)`. -/
def RequestQueue.init (max_concurrent max_queue_size : Nat) : RequestQueue :=
  { max_concurrent := max_concurrent
    max_queue_size := max_queue_size
    queue_size := 0
    active := [] }

/-- `RequestQueue.enqueue_request`: `put_nowait` succeeds unless the bounded
queue is full (`asyncio.QueueFull`). -/
def RequestQueue.enqueue_request (q : RequestQueue) : Bool × RequestQueue :=
  if q.queue_size ≥ q.max_queue_size then (false, q)
  else (true, { q with queue_size := q.queue_size + 1 })

/-- `RequestQueue.dequeue_request`: removes one queued request if any arrived
within the poll timeout, else returns `None`. -/
def RequestQueue.dequeue_request (q : RequestQueue) : RequestQueue :=
  if q.queue_size > 0 then { q with queue_size := q.queue_size - 1 } else q

/-- `RequestQueue.register_active_recording`: under the lock, refuse when the
active dict already holds `max_concurrent` entries, else insert a fresh
`RecordingMetrics`. Returns the boolean the source returns, with the new
state. -/
def RequestQueue.register_active_recording
    (q : RequestQueue) (recording_id show_key : String)
    (duration_minutes : DurationVal) (now : Nat) : Bool × RequestQueue :=
  if q.active.length ≥ q.max_concurrent then
    (false, q)
  else
    let metrics : RecordingMetrics :=
      { recording_id := recording_id
        show_key := show_key
        started_at := now
        duration_minutes := duration_minutes
        last_activity := now }
    (true, { q with active := ainsert recording_id metrics q.active })

/-- `RequestQueue.unregister_active_recording`: pop the entry if present. -/
def RequestQueue.unregister_active_recording
    (q : RequestQueue) (recording_id : String) : RequestQueue :=
  { q with active := aerase recording_id q.active }

/-- The recognized `**metrics` keyword arguments of
`update_recording_progress`. -/
structure ProgressKw where
  step_timing : Option ℚ := none
  file_size : Option Int := none
  error : Bool := false
deriving DecidableEq, Repr

/-- `RequestQueue.update_recording_progress`: no-op when the id is not
active; otherwise set `current_step`, refresh `last_activity`, append `step`
to `steps_completed` if absent, and merge the recognized keyword metrics. -/
def RequestQueue.update_recording_progress
    (q : RequestQueue) (recording_id step : String)
    (kw : ProgressKw) (now : Nat) : RequestQueue :=
  if (alookup q.active recording_id).isSome then
    { q with active := amodify recording_id (fun r =>
        { r with
          current_step := step
          last_activity := now
          steps_completed :=
            if step ∈ r.steps_completed then r.steps_completed
            else r.steps_completed ++ [step]
          step_timings :=
            match kw.step_timing with
            | some t => ainsert step t r.step_timings
            | none => r.step_timings
          file_sizes :=
            match kw.file_size with
            | some n => ainsert step n r.file_sizes
            | none => r.file_sizes
          error_count := r.error_count + (if kw.error then 1 else 0) }) q.active }
  else q

/-- Snapshot returned by `RequestQueue.get_queue_status`. `available_slots`
is a Python `int` subtraction and may be negative, hence `Int`. -/
structure QueueStatus where
  queue_size : Nat
  max_queue_size : Nat
  active_recordings : Nat
  max_concurrent : Nat
  available_slots : Int
deriving DecidableEq, Repr

/-- `RequestQueue.get_queue_status`. -/
def RequestQueue.get_queue_status (q : RequestQueue) : QueueStatus :=
  { queue_size := q.queue_size
    max_queue_size := q.max_queue_size
    active_recordings := q.active.length
    max_concurrent := q.max_concurrent
    available_slots := (q.max_concurrent : Int) - (q.active.length : Int) }

/-! ## `ResourceMonitor._check_thresholds` -/

/-- The three configurable thresholds of `ResourceMonitor.__init__`. -/
structure Thresholds where
  cpu : ℚ
  memory : ℚ
  disk : ℚ
deriving DecidableEq, Repr

/-- The `_alert_states` dict of `ResourceMonitor`. -/
structure AlertStates where
  cpu : Bool
  memory : Bool
  disk : Bool
deriving DecidableEq, Repr

/-- The fields of a `ResourceMetrics` sample that `_check_thresholds`
reads. -/
structure SampleMetrics where
  cpu_percent : ℚ
  memory_percent : ℚ
  disk_usage_percent : ℚ
deriving DecidableEq, Repr, Inhabited

/-- `ResourceMonitor._check_thresholds`: returns the updated alert states and
the `alert_type` tags of the log events emitted, in source order
(cpu, memory, disk). -/
def check_thresholds (th : Thresholds) (st : AlertStates) (m : SampleMetrics) :
    AlertStates × List String :=
  let cpuRes :=
    if m.cpu_percent > th.cpu then
      if !st.cpu then (true, ["cpu_high"]) else (st.cpu, [])
    else
      if st.cpu then (false, ["cpu_normal"]) else (st.cpu, [])
  let memRes :=
    if m.memory_percent > th.memory then
      if !st.memory then (true, ["memory_high"]) else (st.memory, [])
    else
      if st.memory then (false, ["memory_normal"]) else (st.memory, [])
  let diskRes :=
    if m.disk_usage_percent > th.disk then
      if !st.disk then (true, ["disk_high"]) else (st.disk, [])
    else
      if st.disk then (false, ["disk_normal"]) else (st.disk, [])
  ({ cpu := cpuRes.1, memory := memRes.1, disk := diskRes.1 },
   cpuRes.2 ++ memRes.2 ++ diskRes.2)

/-- Process a sequence of samples through `_check_thresholds` (one iteration
of the monitoring loop per sample), collecting the events of each sample. -/
def run_thresholds (th : Thresholds) (st : AlertStates) :
    List SampleMetrics → AlertStates × List (List String)
  | [] => (st, [])
  | m :: ms =>
    let step := check_thresholds th st m
    let rest := run_thresholds th step.1 ms
    (rest.1, step.2 :: rest.2)

/-! ## `PerformanceMonitor.can_accept_recording` -/

/-- The `current` sub-dict of `get_resource_summary` as read (with `.get`
defaults) by `can_accept_recording`. -/
structure CurrentRes where
  memory_percent : ℚ
  cpu_percent : ℚ
  disk_free_gb : ℚ
deriving DecidableEq, Repr

/-- The resource summary as read by `can_accept_recording`: its `status`
string and, when present, the `current` metrics dict (`none` models the
`no_data` summary, which has no `current` key). -/
structure ResourceSummary where
  status : String
  current : Option CurrentRes
deriving DecidableEq, Repr

/-- `current_metrics.get(key, 0)` defaults. -/
def ResourceSummary.memD (rs : ResourceSummary) : ℚ :=
  match rs.current with | some c => c.memory_percent | none => 0

def ResourceSummary.cpuD (rs : ResourceSummary) : ℚ :=
  match rs.current with | some c => c.cpu_percent | none => 0

def ResourceSummary.diskFreeD (rs : ResourceSummary) : ℚ :=
  match rs.current with | some c => c.disk_free_gb | none => 0

/-- Result of `can_accept_recording` (the fields the orchestrator reads). -/
structure AcceptanceCheck where
  can_accept : Bool
  reasons : List String
  queue_status : QueueStatus
  resource_status : String
  estimated_wait_time : Option ℚ
deriving DecidableEq, Repr

/-- `PerformanceMonitor._estimate_wait_time`: `None` when a slot is free,
else `queue_size * 30 minutes` in seconds. -/
def estimate_wait_time (qs : QueueStatus) : Option ℚ :=
  if qs.available_slots > 0 then none
  else some ((qs.queue_size : ℚ) * (30 * 60))

/-- `PerformanceMonitor.can_accept_recording`: pure read of the queue status
and the resource summary; the rejection rules are evaluated in source
order, each appending its reason. -/
def can_accept_recording (q : RequestQueue) (rs : ResourceSummary)
    (_show_key : String) (duration_minutes : ℚ) : AcceptanceCheck :=
  let qs := q.get_queue_status
  let acc0 : Bool × List String := (true, [])
  let acc1 :=
    if qs.available_slots ≤ 0 ∧ qs.queue_size ≥ qs.max_queue_size then
      (false, acc0.2 ++ ["Queue is full and no recording slots available"])
    else acc0
  let acc4 :=
    if rs.status = "warning" then
      let acc2 :=
        if rs.memD > 90 ∧ duration_minutes > 60 then
          (false, acc1.2 ++ ["High memory usage - rejecting long recordings"])
        else acc1
      let acc3 :=
        if rs.cpuD > 95 then
          (false, acc2.2 ++ ["Very high CPU usage"])
        else acc2
      if rs.diskFreeD < 1 then
        (false, acc3.2 ++ ["Insufficient disk space"])
      else acc3
    else acc1
  { can_accept := acc4.1
    reasons := acc4.2
    queue_status := qs
    resource_status := rs.status
    estimated_wait_time := estimate_wait_time qs }

/-! ## `stream_recorder.StreamRecorder` -/

/-- A token of one of the regex patterns of `_analyze_ffmpeg_error`: a
literal character or `\d`. -/
inductive PTok
  | ch (c : Char)
  | anyDigit
deriving DecidableEq, Repr

/-- Literal part of a pattern. -/
def pLit (s : String) : List PTok := s.data.map PTok.ch

/-- Match a token group against a prefix of the input, returning the
remainder on success. -/
def tokMatch : List PTok → List Char → Option (List Char)
  | [], rest => some rest
  | _ :: _, [] => none
  | PTok.ch c :: ts, x :: xs => if x = c then tokMatch ts xs else none
  | PTok.anyDigit :: ts, x :: xs => if x.isDigit then tokMatch ts xs else none

/-- Find the earliest occurrence of a token group in the input and return the
remainder after it. -/
def searchGroup (g : List PTok) : List Char → Option (List Char)
  | [] => tokMatch g []
  | x :: xs =>
    match tokMatch g (x :: xs) with
    | some r => some r
    | none => searchGroup g xs

/-- `re.search` for a pattern written as token groups separated by `.*`:
each group must occur, in order, with arbitrary gaps. Matching the earliest
occurrence of each group is complete here because every group has fixed
length. -/
def matchGroups : List (List PTok) → List Char → Bool
  | [], _ => true
  | g :: gs, s =>
    match searchGroup g s with
    | some r => matchGroups gs r
    | none => false

/-- The `network_patterns` list of `_analyze_ffmpeg_error`. -/
def network_patterns : List (List (List PTok)) :=
  [ [pLit "connection", pLit "refused"],
    [pLit "connection", pLit "timed out"],
    [pLit "network", pLit "unreachable"],
    [pLit "temporary failure in name resolution"],
    [pLit "no route to host"],
    [pLit "connection reset by peer"],
    [pLit "server returned 4" ++ [PTok.anyDigit, PTok.anyDigit]],
    [pLit "server returned 5" ++ [PTok.anyDigit, PTok.anyDigit]],
    [pLit "http error 4" ++ [PTok.anyDigit, PTok.anyDigit]],
    [pLit "http error 5" ++ [PTok.anyDigit, PTok.anyDigit]] ]

/-- The `stream_patterns` list of `_analyze_ffmpeg_error`. -/
def stream_patterns : List (List (List PTok)) :=
  [ [pLit "invalid data found when processing input"],
    [pLit "stream", pLit "not found"],
    [pLit "no such file or directory"],
    [pLit "protocol not found"],
    [pLit "invalid url"] ]

/-- The `fs_patterns` list of `_analyze_ffmpeg_error`. -/
def fs_patterns : List (List (List PTok)) :=
  [ [pLit "permission denied"],
    [pLit "no space left on device"],
    [pLit "read-only file system"],
    [pLit "file exists"] ]

/-- The error object as raised at the orchestration site
(`raise error_info["exception"](error_info["message"])`): its
`error_type` and the `retryable` flag it carries. -/
structure FfmpegErr where
  etype : String
  retryable : Bool
deriving DecidableEq, Repr

/-- `StreamRecorder._analyze_ffmpeg_error`, composed with the raise at the
call site. The classes are constructed with the message only, so each error
carries its class-default `retryable`: `NetworkError` → true,
`StreamError` → true, `FileSystemError` → false. NOTE: the source computes
a local `retryable` variable in the stream-pattern branch
(`retryable = not re.search(r'(protocol not found|invalid url)', ...)`)
but never passes it to the `StreamError` constructor, so the raised
`StreamError` always has `retryable=True`. -/
def analyze_ffmpeg_error (stderr_text : String) (_return_code : Int) : FfmpegErr :=
  let sl := stderr_text.data.map Char.toLower
  if network_patterns.any (fun p => matchGroups p sl) then
    { etype := "network", retryable := true }
  else if stream_patterns.any (fun p => matchGroups p sl) then
    { etype := "stream", retryable := true }
  else if fs_patterns.any (fun p => matchGroups p sl) then
    { etype := "filesystem", retryable := false }
  else
    { etype := "stream", retryable := true }

/-- Outcome of one `_execute_recording` attempt, as observed by the retry
loop of `record_stream`: a boolean return, or a raised `RecordingError`. -/
inductive ExecOutcome
  | retTrue
  | retFalse
  | raises (e : FfmpegErr)
deriving DecidableEq, Repr

/-- The observable trace of a `record_stream` call: the returned boolean,
how many `_execute_recording` attempts were made, and the seconds slept
before each retry, in order. -/
structure StreamRunOut where
  result : Bool
  attempts : Nat
  sleeps : List Nat
deriving DecidableEq, Repr

/-- The `for attempt in range(self.max_retries + 1)` loop of
`record_stream`, over the list of attempt indices still to run. Before each
attempt with index `> 0` it sleeps
`min(retry_delay * 2 ** (attempt - 1), 60)` seconds. A `False` return
continues the loop; a retryable raised error continues; a non-retryable
raised error breaks. -/
def runAttempts (retry_delay : Nat) (outcomes : Nat → ExecOutcome) :
    List Nat → Nat → List Nat → StreamRunOut
  | [], att, sleeps => { result := false, attempts := att, sleeps := sleeps }
  | a :: rest, att, sleeps =>
    let sleeps' :=
      if a > 0 then sleeps ++ [min (retry_delay * 2 ^ (a - 1)) 60] else sleeps
    match outcomes a with
    | ExecOutcome.retTrue => { result := true, attempts := att + 1, sleeps := sleeps' }
    | ExecOutcome.retFalse => runAttempts retry_delay outcomes rest (att + 1) sleeps'
    | ExecOutcome.raises e =>
      if e.retryable then runAttempts retry_delay outcomes rest (att + 1) sleeps'
      else { result := false, attempts := att + 1, sleeps := sleeps' }

/-- `StreamRecorder.record_stream`: input validation (URL scheme, duration
range, output-directory creation) followed by the retry loop.
`mkdir_ok` is the oracle for `output_dir.mkdir`. -/
def record_stream (max_retries retry_delay : Nat) (url : String)
    (duration_minutes : Int) (mkdir_ok : Bool)
    (outcomes : Nat → ExecOutcome) : StreamRunOut :=
  if !("http://".data.isPrefixOf url.data || "https://".data.isPrefixOf url.data) then
    { result := false, attempts := 0, sleeps := [] }
  else if duration_minutes ≤ 0 ∨ duration_minutes > 480 then
    { result := false, attempts := 0, sleeps := [] }
  else if !mkdir_ok then
    { result := false, attempts := 0, sleeps := [] }
  else
    runAttempts retry_delay outcomes (List.range (max_retries + 1)) 0 []

/-! ## `recording_service.RecordingService` -/

/-- The fields of a `ShowConfig` the orchestrator reads. -/
structure ShowConfig where
  station : String
  remote_directory : String
deriving DecidableEq, Repr

/-- The typed error data of a raised `RecordingStepError` subclass:
class name, `step`, and `retryable` flag. -/
structure RecErr where
  eclass : String
  step : String
  retryable : Bool
deriving DecidableEq, Repr

/-- One entry of the legacy `_active_recordings` dict of `RecordingService`
(the fields the claims read; the stored config/url/timestamps add nothing). -/
structure LegacyRec where
  show_key : String
  duration : Int
deriving DecidableEq, Repr

/-- The `_recording_stats` dict. -/
structure Stats where
  total_recordings : Nat
  successful_recordings : Nat
  failed_recordings : Nat
deriving DecidableEq, Repr

/-- Mutable state of a `RecordingService` instance. -/
structure ServiceState where
  max_concurrent_recordings : Nat
  legacy : List (String × LegacyRec)
  perf : RequestQueue
  stats : Stats
deriving DecidableEq, Repr

/-- What `transfer_file_with_cleanup` returns, as read by the orchestrator. -/
structure TransferRes where
  success : Bool
  remote_path : Option String
  local_file_retained : Bool
deriving DecidableEq, Repr

/-- Outcome of the metadata-processing executor call: a raised exception, or
an output path together with the output file's existence/size as probed by
`os.path.exists` / `os.path.getsize` (`none` = missing). -/
inductive MetaOutcome
  | raises
  | ok (path : String) (size : Option Nat)
deriving DecidableEq, Repr

/-- Outcome of the transfer executor call. -/
inductive TransferOutcome
  | raises
  | ret (r : TransferRes)
deriving DecidableEq, Repr

/-- Environment of one `record_show` call: the deterministic answers of every
external collaborator and probe it consults. -/
structure RecEnv where
  /-- `resource_monitor.get_resource_summary()` as read by admission. -/
  summary : ResourceSummary
  /-- `config_manager.is_loaded()`. -/
  config_loaded : Bool
  /-- `config_manager.get_show_config(key)` (`None` = absent). -/
  getShow : String → Option ShowConfig
  /-- `config_manager.get_station_url(key)` (`None` = absent). -/
  getStation : String → Option String
  /-- work-directory write+delete probe of `_validate_and_register_recording`. -/
  work_dir_writable : Bool
  /-- `shutil.disk_usage` free GB; `none` = the probe itself raised
  (which validation logs and ignores). -/
  disk_free : Option ℚ
  /-- `stream_recorder.record_stream(...)` boolean return. -/
  stream_success : Bool
  /-- existence/size of the recorded temp file after capture. -/
  recorded_size : Option Nat
  /-- metadata-processing outcome. -/
  meta : MetaOutcome
  /-- transfer outcome. -/
  transfer : TransferOutcome
  /-- whether the cleanup step's `await` raises (the per-file deletion
  errors inside `_cleanup_temp_files` are caught there and only logged). -/
  cleanup_raises : Bool
  /-- abstract timestamp for registration bookkeeping. -/
  now : Nat

/-- The rational 0.1 (the 100 MB critical-disk threshold in GB), written as
a reduced fraction so that comparisons against it evaluate. -/
def ratTenth : ℚ := ⟨1, 10, by norm_num, Nat.coprime_one_left 10⟩

/-- The disk-space gate of validation: `free_gb < 0.1` fails; a probe error
(`none`) only logs a warning and does not fail. -/
def diskCritical : Option ℚ → Bool
  | some free_gb => decide (free_gb < ratTenth)
  | none => false

/-- `RecordingService._validate_and_register_recording` under
`_recording_lock`: the checks in source order. Succeeds with the updated
legacy registry plus the show config and station url it resolved (the
orchestrator re-reads both from the same deterministic config manager right
after validation, so the pair is returned here once). -/
def validate_and_register_recording
    (max_concurrent_recordings : Nat) (legacy : List (String × LegacyRec))
    (env : RecEnv) (recording_id show_key : String) (d : DurationVal) :
    Except RecErr (List (String × LegacyRec) × ShowConfig × String) :=
  if legacy.length ≥ max_concurrent_recordings then
    Except.error { eclass := "ConcurrencyError", step := "concurrency_check", retryable := true }
  else if !env.config_loaded then
    Except.error { eclass := "ValidationError", step := "configuration_validation", retryable := false }
  else
    match env.getShow show_key with
    | none =>
      Except.error { eclass := "ValidationError", step := "configuration_validation", retryable := false }
    | some show_config =>
      match env.getStation show_config.station with
      | none =>
        Except.error { eclass := "ValidationError", step := "configuration_validation", retryable := false }
      | some station_url =>
        match d with
        | DurationVal.floatD _ =>
          Except.error { eclass := "ValidationError", step := "parameter_validation", retryable := false }
        | DurationVal.intD n =>
          if n ≤ 0 then
            Except.error { eclass := "ValidationError", step := "parameter_validation", retryable := false }
          else if n > 480 then
            Except.error { eclass := "ValidationError", step := "parameter_validation", retryable := false }
          else if !env.work_dir_writable then
            Except.error { eclass := "ValidationError", step := "system_validation", retryable := false }
          else if diskCritical env.disk_free then
            Except.error { eclass := "ValidationError", step := "system_validation", retryable := true }
          else
            Except.ok (ainsert recording_id { show_key := show_key, duration := n } legacy,
              show_config, station_url)

/-- The fields of the returned recording-result dict that the claims read.
Wall-clock fields (`started_at`, `completed_at`, `step_timings`,
`performance_metrics`) carry no information for the claims. `error_class`
is `error_details['error_type']`. -/
structure RecResult where
  success : Bool
  recording_id : String
  steps_completed : List String
  temp_files_retained : Bool
  error_step : Option String
  error_class : Option String
  final_file_path : Option String
  remote_path : Option String
deriving DecidableEq, Repr

/-- The result dict as initialized at the top of `record_show`. -/
def RecResult.initR (recording_id : String) : RecResult :=
  { success := false
    recording_id := recording_id
    steps_completed := []
    temp_files_retained := false
    error_step := none
    error_class := none
    final_file_path := none
    remote_path := none }

/-- The `except RecordingStepError` handler of `record_show`: record the
failing step and error class, force `temp_files_retained = True`, return the
result (success stays `False`). -/
def failResult (r : RecResult) (step eclass : String) : RecResult :=
  { r with
    error_step := some step
    error_class := some eclass
    temp_files_retained := true }

/-- Exit protocol of `_recording_context` for a body that returned (every
path of the `record_show` body, success or handled failure, returns the
result rather than raising, so the context always resumes normally):
increment `successful_recordings`, then in the `finally` block unregister
from the legacy dict and from the performance-monitor queue. The context's
`except` branch (increment `failed_recordings` and re-raise) corresponds to
the body raising, which no modelled path does. -/
def finishContext (s : ServiceState) (legacy : List (String × LegacyRec))
    (perf : RequestQueue) (stats : Stats) (recording_id : String) : ServiceState :=
  { s with
    legacy := aerase recording_id legacy
    perf := perf.unregister_active_recording recording_id
    stats := { stats with
      successful_recordings := stats.successful_recordings + 1 } }

/-- `RecordingService.record_show`. Returns the result dict, the service
state after the call, and a flag recording whether
`stream_recorder.record_stream` was invoked. -/
def record_show (s : ServiceState) (env : RecEnv)
    (recording_id show_key : String) (d : DurationVal) :
    RecResult × ServiceState × Bool :=
  let result0 := RecResult.initR recording_id
  -- admission check, before the recording context is entered
  let ac := can_accept_recording s.perf env.summary show_key d.toRat
  if !ac.can_accept then
    ({ result0 with error_step := some "resource_check" }, s, false)
  else
    -- `_recording_context` entry: total_recordings += 1
    let stats1 := { s.stats with total_recordings := s.stats.total_recordings + 1 }
    -- register with the performance monitor; the returned boolean is discarded
    let perf1 := (s.perf.register_active_recording recording_id show_key d env.now).2
    -- Step 1: validation; any exception from it is wrapped at the call site
    -- as ValidationError(step="validation", retryable=False)
    match validate_and_register_recording s.max_concurrent_recordings s.legacy env
        recording_id show_key d with
    | Except.error _ =>
      (failResult result0 "validation" "ValidationError",
       finishContext s s.legacy perf1 stats1 recording_id, false)
    | Except.ok (legacy1, _show_config, _station_url) =>
      let result1 := { result0 with steps_completed := ["validation"] }
      let perf2 := perf1.update_recording_progress recording_id "validation"
        { step_timing := some 0 } env.now
      -- Step 2: temporary path generation (pure string construction)
      let result2 := { result1 with
        steps_completed := result1.steps_completed ++ ["temp_path_generation"] }
      -- Step 3: stream recording (the capture call happens from here on)
      if !env.stream_success then
        (failResult result2 "stream_recording" "WorkflowError",
         finishContext s legacy1 perf2 stats1 recording_id, true)
      else
        match env.recorded_size with
        | none =>
          (failResult result2 "stream_recording" "WorkflowError",
           finishContext s legacy1 perf2 stats1 recording_id, true)
        | some 0 =>
          (failResult result2 "stream_recording" "WorkflowError",
           finishContext s legacy1 perf2 stats1 recording_id, true)
        | some (fsz + 1) =>
          let result3 := { result2 with
            steps_completed := result2.steps_completed ++ ["stream_recording"] }
          let perf3 := perf2.update_recording_progress recording_id "stream_recording"
            { step_timing := some 0, file_size := some ((fsz : Int) + 1) } env.now
          -- Step 4: metadata processing (thread-pool executor)
          match env.meta with
          | MetaOutcome.raises =>
            (failResult result3 "metadata_processing" "WorkflowError",
             finishContext s legacy1 perf3 stats1 recording_id, true)
          | MetaOutcome.ok ppath psize =>
            match psize with
            | none =>
              (failResult result3 "metadata_processing" "WorkflowError",
               finishContext s legacy1 perf3 stats1 recording_id, true)
            | some 0 =>
              (failResult result3 "metadata_processing" "WorkflowError",
               finishContext s legacy1 perf3 stats1 recording_id, true)
            | some (psz + 1) =>
              let result4 := { result3 with
                steps_completed := result3.steps_completed ++ ["metadata_processing"]
                final_file_path := some ppath }
              let perf4 := perf3.update_recording_progress recording_id "metadata_processing"
                { step_timing := some 0, file_size := some ((psz : Int) + 1) } env.now
              -- Step 5: file transfer (thread-pool executor)
              match env.transfer with
              | TransferOutcome.raises =>
                (failResult result4 "file_transfer" "WorkflowError",
                 finishContext s legacy1 perf4 stats1 recording_id, true)
              | TransferOutcome.ret tr =>
                if !tr.success then
                  (failResult result4 "file_transfer" "WorkflowError",
                   finishContext s legacy1 perf4 stats1 recording_id, true)
                else
                  let result5 := { result4 with
                    steps_completed := result4.steps_completed ++ ["file_transfer"]
                    remote_path := tr.remote_path
                    temp_files_retained := tr.local_file_retained }
                  let perf5 := perf4.update_recording_progress recording_id "file_transfer"
                    { step_timing := some 0 } env.now
                  -- Step 6: cleanup; a cleanup exception only forces retention
                  let result6 :=
                    if env.cleanup_raises then
                      { result5 with temp_files_retained := true }
                    else
                      { result5 with
                        steps_completed := result5.steps_completed ++ ["cleanup"] }
                  ({ result6 with success := true },
                   finishContext s legacy1 perf5 stats1 recording_id, true)

/-! ## Reachable states of `RequestQueue` -/

/-- The operations through which `RequestQueue` state evolves. -/
inductive QOp
  | register (rid show_key : String) (d : DurationVal) (now : Nat)
  | unregister (rid : String)
  | progress (rid step : String) (kw : ProgressKw) (now : Nat)
  | enqueue
  | dequeue
deriving Repr

/-- Whether an operation is a `register_active_recording` call. -/
def QOp.isRegister : QOp → Bool
  | QOp.register _ _ _ _ => true
  | _ => false

/-- Apply one operation to the queue state (return values discarded). -/
def applyOp (q : RequestQueue) : QOp → RequestQueue
  | QOp.register rid sk d now => (q.register_active_recording rid sk d now).2
  | QOp.unregister rid => q.unregister_active_recording rid
  | QOp.progress rid step kw now => q.update_recording_progress rid step kw now
  | QOp.enqueue => (q.enqueue_request).2
  | QOp.dequeue => q.dequeue_request

/-- Apply a sequence of operations, oldest first. -/
def applyOps (ops : List QOp) (q : RequestQueue) : RequestQueue :=
  ops.foldl applyOp q

/-- Repeated `update_recording_progress` calls for the same id and step,
with arbitrary keyword metrics and timestamps per call. -/
def applyProgressCalls (rid step : String) :
    List (ProgressKw × Nat) → RequestQueue → RequestQueue
  | [], q => q
  | c :: cs, q =>
    applyProgressCalls rid step cs (q.update_recording_progress rid step c.1 c.2)

/-- The `steps_completed` list stored for an id (empty if not active). -/
def stepsOf (q : RequestQueue) (rid : String) : List String :=
  match alookup q.active rid with
  | some r => r.steps_completed
  | none => []

/-! ## Helper lemmas about the association-list dict model -/

theorem alookup_isSome_iff_mem {α : Type} (l : List (String × α)) (k : String) :
    (alookup l k).isSome = true ↔ k ∈ akeys l := by
  induction l with
  | nil => simp [alookup, akeys]
  | cons hd tl ih =>
    by_cases h : hd.1 = k
    · simp [alookup, akeys, h]
    · simp only [alookup, h, if_false, akeys, List.map_cons, List.mem_cons, ih]
      constructor
      · exact Or.inr
      · rintro (he | he)
        · exact absurd he.symm h
        · exact he

theorem aerase_eq_of_alookup_none {α : Type} (l : List (String × α)) (k : String)
    (h : alookup l k = none) : aerase k l = l := by
  induction l with
  | nil => rfl
  | cons hd tl ih =>
    by_cases hh : hd.1 = k
    · simp [alookup, hh] at h
    · rw [alookup, if_neg hh] at h
      rw [aerase, if_neg hh, ih h]

theorem ainsert_length_le {α : Type} (k : String) (v : α) (l : List (String × α)) :
    (ainsert k v l).length ≤ l.length + 1 := by
  induction l with
  | nil => simp [ainsert]
  | cons hd tl ih =>
    by_cases h : hd.1 = k
    · simp [ainsert, h]
    · rw [ainsert, if_neg h]
      simp only [List.length_cons]
      omega

theorem aerase_length_le {α : Type} (k : String) (l : List (String × α)) :
    (aerase k l).length ≤ l.length := by
  induction l with
  | nil => simp [aerase]
  | cons hd tl ih =>
    by_cases h : hd.1 = k
    · rw [aerase, if_pos h]
      simp only [List.length_cons]
      omega
    · rw [aerase, if_neg h]
      simp only [List.length_cons]
      omega

theorem amodify_length {α : Type} (k : String) (f : α → α) (l : List (String × α)) :
    (amodify k f l).length = l.length := by
  induction l with
  | nil => rfl
  | cons hd tl ih =>
    by_cases h : hd.1 = k
    · rw [amodify, if_pos h]
      simp
    · rw [amodify, if_neg h]
      simp only [List.length_cons, ih]

theorem mem_ainsert {α : Type} {p : String × α} {k : String} {v : α}
    {l : List (String × α)} (h : p ∈ ainsert k v l) : p = (k, v) ∨ p ∈ l := by
  induction l with
  | nil =>
    rw [ainsert] at h
    exact Or.inl (List.mem_singleton.mp h)
  | cons hd tl ih =>
    by_cases hh : hd.1 = k
    · rw [ainsert, if_pos hh] at h
      rcases List.mem_cons.mp h with h' | h'
      · exact Or.inl h'
      · exact Or.inr (List.mem_cons_of_mem _ h')
    · rw [ainsert, if_neg hh] at h
      rcases List.mem_cons.mp h with h' | h'
      · exact Or.inr (h' ▸ List.mem_cons_self _ _)
      · rcases ih h' with h'' | h''
        · exact Or.inl h''
        · exact Or.inr (List.mem_cons_of_mem _ h'')

theorem mem_aerase {α : Type} {p : String × α} {k : String}
    {l : List (String × α)} (h : p ∈ aerase k l) : p ∈ l := by
  induction l with
  | nil =>
    rw [aerase] at h
    exact absurd h (List.not_mem_nil p)
  | cons hd tl ih =>
    by_cases hh : hd.1 = k
    · rw [aerase, if_pos hh] at h
      exact List.mem_cons_of_mem _ h
    · rw [aerase, if_neg hh] at h
      rcases List.mem_cons.mp h with h' | h'
      · exact h' ▸ List.mem_cons_self _ _
      · exact List.mem_cons_of_mem _ (ih h')

theorem mem_amodify {α : Type} {p : String × α} {k : String} {f : α → α}
    {l : List (String × α)} (h : p ∈ amodify k f l) :
    p ∈ l ∨ ∃ v, (p.1, v) ∈ l ∧ p.2 = f v := by
  induction l with
  | nil =>
    rw [amodify] at h
    exact absurd h (List.not_mem_nil p)
  | cons hd tl ih =>
    by_cases hh : hd.1 = k
    · rw [amodify, if_pos hh] at h
      rcases List.mem_cons.mp h with h' | h'
      · refine Or.inr ⟨hd.2, ?_, ?_⟩
        · rw [h']
          exact List.mem_cons_self _ _
        · rw [h']
      · exact Or.inl (List.mem_cons_of_mem _ h')
    · rw [amodify, if_neg hh] at h
      rcases List.mem_cons.mp h with h' | h'
      · exact Or.inl (h' ▸ List.mem_cons_self _ _)
      · rcases ih h' with h'' | ⟨v, hv, hpv⟩
        · exact Or.inl (List.mem_cons_of_mem _ h'')
        · exact Or.inr ⟨v, List.mem_cons_of_mem _ hv, hpv⟩

theorem alookup_mem {α : Type} {l : List (String × α)} {k : String} {v : α}
    (h : alookup l k = some v) : (k, v) ∈ l := by
  induction l with
  | nil => simp [alookup] at h
  | cons hd tl ih =>
    by_cases hh : hd.1 = k
    · rw [alookup, if_pos hh] at h
      have : hd = (k, v) := by
        rcases hd with ⟨k', v'⟩
        simp only [Option.some.injEq] at h
        simp_all
      exact this ▸ List.mem_cons_self _ _
    · rw [alookup, if_neg hh] at h
      exact List.mem_cons_of_mem _ (ih h)

theorem alookup_amodify_self {α : Type} (k : String) (f : α → α)
    (l : List (String × α)) :
    alookup (amodify k f l) k = Option.map f (alookup l k) := by
  induction l with
  | nil => rfl
  | cons hd tl ih =>
    by_cases hh : hd.1 = k
    · rw [amodify, if_pos hh, alookup, alookup, if_pos hh]
      simp [hh]
    · rw [amodify, if_neg hh, alookup, alookup, if_neg hh, if_neg hh, ih]

theorem akeys_amodify {α : Type} (k : String) (f : α → α) (l : List (String × α)) :
    akeys (amodify k f l) = akeys l := by
  induction l with
  | nil => rfl
  | cons hd tl ih =>
    by_cases hh : hd.1 = k
    · rw [amodify, if_pos hh]
      simp [akeys]
    · rw [amodify, if_neg hh]
      simp only [akeys, List.map_cons]
      rw [show (amodify k f tl).map Prod.fst = akeys (amodify k f tl) from rfl,
        show tl.map Prod.fst = akeys tl from rfl, ih]

/-! ## Lemmas about `RequestQueue` operations -/

theorem update_progress_of_inactive (q : RequestQueue) (rid step : String)
    (kw : ProgressKw) (now : Nat) (h : alookup q.active rid = none) :
    q.update_recording_progress rid step kw now = q := by
  unfold RequestQueue.update_recording_progress
  rw [if_neg]
  rw [h]
  simp

theorem update_progress_lookup (q : RequestQueue) (rid step : String)
    (kw : ProgressKw) (now : Nat) (r : RecordingMetrics)
    (h : alookup q.active rid = some r) :
    alookup (q.update_recording_progress rid step kw now).active rid =
      some { r with
        current_step := step
        last_activity := now
        steps_completed :=
          if step ∈ r.steps_completed then r.steps_completed
          else r.steps_completed ++ [step]
        step_timings :=
          match kw.step_timing with
          | some t => ainsert step t r.step_timings
          | none => r.step_timings
        file_sizes :=
          match kw.file_size with
          | some n => ainsert step n r.file_sizes
          | none => r.file_sizes
        error_count := r.error_count + (if kw.error then 1 else 0) } := by
  unfold RequestQueue.update_recording_progress
  rw [if_pos (by rw [h]; rfl)]
  show alookup (amodify rid _ q.active) rid = _
  rw [alookup_amodify_self, h]
  rfl

theorem applyOp_max_concurrent (q : RequestQueue) (op : QOp) :
    (applyOp q op).max_concurrent = q.max_concurrent := by
  cases op with
  | register rid sk d now =>
    simp only [applyOp, RequestQueue.register_active_recording]
    split <;> rfl
  | unregister rid => rfl
  | progress rid step kw now =>
    simp only [applyOp, RequestQueue.update_recording_progress]
    split <;> rfl
  | enqueue =>
    simp only [applyOp, RequestQueue.enqueue_request]
    split <;> rfl
  | dequeue =>
    simp only [applyOp, RequestQueue.dequeue_request]
    split <;> rfl

theorem applyOp_length_le (q : RequestQueue) (op : QOp)
    (h : q.active.length ≤ q.max_concurrent) :
    (applyOp q op).active.length ≤ q.max_concurrent := by
  cases op with
  | register rid sk d now =>
    simp only [applyOp, RequestQueue.register_active_recording]
    split
    · exact h
    · rename_i hlt
      simp only [not_le] at hlt
      calc (ainsert rid _ q.active).length
          ≤ q.active.length + 1 := ainsert_length_le _ _ _
        _ ≤ q.max_concurrent := by omega
  | unregister rid =>
    exact le_trans (aerase_length_le _ _) h
  | progress rid step kw now =>
    simp only [applyOp, RequestQueue.update_recording_progress]
    split
    · simpa [amodify_length] using h
    · exact h
  | enqueue =>
    simp only [applyOp, RequestQueue.enqueue_request]
    split <;> exact h
  | dequeue =>
    simp only [applyOp, RequestQueue.dequeue_request]
    split <;> exact h

theorem applyOps_length_le (ops : List QOp) (q : RequestQueue)
    (h : q.active.length ≤ q.max_concurrent) :
    (applyOps ops q).active.length ≤ q.max_concurrent := by
  induction ops generalizing q with
  | nil => exact h
  | cons op rest ih =>
    show (applyOps rest (applyOp q op)).active.length ≤ q.max_concurrent
    rw [← applyOp_max_concurrent q op]
    exact ih _ (by rw [applyOp_max_concurrent q op]; exact applyOp_length_le q op h)

/-- All `steps_completed` lists stored in the active registry are free of
duplicates. -/
def StepsNodup (q : RequestQueue) : Prop :=
  ∀ p ∈ q.active, (p.2.steps_completed).Nodup

theorem stepsNodup_applyOp (q : RequestQueue) (op : QOp) (h : StepsNodup q) :
    StepsNodup (applyOp q op) := by
  cases op with
  | register rid sk d now =>
    intro p hp
    simp only [applyOp, RequestQueue.register_active_recording] at hp
    split at hp
    · exact h p hp
    · rcases mem_ainsert hp with h' | h'
      · rw [h']
        exact List.nodup_nil
      · exact h p h'
  | unregister rid =>
    intro p hp
    exact h p (mem_aerase hp)
  | progress rid step kw now =>
    intro p hp
    simp only [applyOp, RequestQueue.update_recording_progress] at hp
    split at hp
    · rcases mem_amodify hp with h' | ⟨v, hv, hpv⟩
      · exact h p h'
      · have hvn : v.steps_completed.Nodup := h (p.1, v) hv
        rw [hpv]
        by_cases hs : step ∈ v.steps_completed
        · simpa [hs] using hvn
        · simp only [hs, if_false]
          rw [List.nodup_append]
          exact ⟨hvn, List.nodup_singleton _, by simpa [List.disjoint_singleton] using hs⟩
    · exact h p hp
  | enqueue =>
    intro p hp
    simp only [applyOp, RequestQueue.enqueue_request] at hp
    split at hp <;> exact h p hp
  | dequeue =>
    intro p hp
    simp only [applyOp, RequestQueue.dequeue_request] at hp
    split at hp <;> exact h p hp

theorem stepsNodup_applyOps (ops : List QOp) (q : RequestQueue)
    (h : StepsNodup q) : StepsNodup (applyOps ops q) := by
  induction ops generalizing q with
  | nil => exact h
  | cons op rest ih => exact ih _ (stepsNodup_applyOp q op h)

theorem stepsNodup_init (mc mq : Nat) : StepsNodup (RequestQueue.init mc mq) := by
  intro p hp
  simp [RequestQueue.init] at hp

/-- After repeated identical progress calls, the stored `steps_completed`
stays at the value reached after the first call. -/
theorem applyProgressCalls_steps_stable (rid step : String)
    (cs : List (ProgressKw × Nat)) (q : RequestQueue) (r : RecordingMetrics)
    (h : alookup q.active rid = some r) (hs : step ∈ r.steps_completed) :
    ∃ r', alookup (applyProgressCalls rid step cs q).active rid = some r' ∧
      r'.steps_completed = r.steps_completed := by
  induction cs generalizing q r with
  | nil => exact ⟨r, h, rfl⟩
  | cons c rest ih =>
    have h1 := update_progress_lookup q rid step c.1 c.2 r h
    rw [if_pos hs] at h1
    rcases ih _ _ h1 hs with ⟨r', hr', hsteps⟩
    exact ⟨r', hr', hsteps⟩

/-! ## Concrete fixtures for witnesses and counterexamples -/

/-- An example stored metrics record. -/
def mFix (rid : String) : RecordingMetrics :=
  { recording_id := rid
    show_key := "morning-show"
    started_at := 0
    duration_minutes := DurationVal.intD 30 }

/-- A queue at its concurrency ceiling (3 active of `max_concurrent = 3`)
whose request queue is empty (0 of 10). -/
def qFull3 : RequestQueue :=
  { max_concurrent := 3
    max_queue_size := 10
    queue_size := 0
    active := [("a", mFix "a"), ("b", mFix "b"), ("c", mFix "c")] }

/-- A healthy resource summary (no alerts, so `status = "healthy"`). -/
def rsHealthy : ResourceSummary := { status := "healthy", current := none }

/-- Environment in which every collaborator succeeds: config loaded,
`morning-show` resolves to station `st1` with a stream URL, probes pass,
capture/tagging/transfer succeed. -/
def envOk : RecEnv :=
  { summary := rsHealthy
    config_loaded := true
    getShow := fun k =>
      if k = "morning-show" then
        some { station := "st1", remote_directory := "/remote/morning" }
      else none
    getStation := fun k => if k = "st1" then some "http://stream.example/live" else none
    work_dir_writable := true
    disk_free := some 10
    stream_success := true
    recorded_size := some 1000
    meta := MetaOutcome.ok "proc.mp3" (some 900)
    transfer := TransferOutcome.ret
      { success := true, remote_path := some "/remote/morning/proc.mp3",
        local_file_retained := false }
    cleanup_raises := false
    now := 0 }

/-- A fresh service (nothing active, zeroed statistics). -/
def s0 : ServiceState :=
  { max_concurrent_recordings := 3
    legacy := []
    perf := RequestQueue.init 3 6
    stats := { total_recordings := 0, successful_recordings := 0, failed_recordings := 0 } }

/-- A service whose performance-monitor queue is at the ceiling AND whose
request queue is full, so admission rejects. -/
def sRejecting : ServiceState :=
  { s0 with perf := { qFull3 with queue_size := 10 } }

/-- A service whose performance-monitor registry is at the ceiling but whose
request queue is empty, so admission still accepts. -/
def sPerfFull : ServiceState := { s0 with perf := qFull3 }

/-! ## C7: the active registry never exceeds the concurrency ceiling -/

/-- C7: in every state of `RequestQueue` reachable from initialization, the
active registry holds at most `max_concurrent` entries;
`register_active_recording` at capacity returns `False` with no side
effect; and no operation other than `register_active_recording` adds a key
to the registry. -/
theorem C7_registry_bounded :
    (∀ (mc mq : Nat) (ops : List QOp),
        (applyOps ops (RequestQueue.init mc mq)).active.length ≤ mc) ∧
    (∀ (q : RequestQueue) (rid sk : String) (d : DurationVal) (now : Nat),
        q.active.length = q.max_concurrent →
        q.register_active_recording rid sk d now = (false, q)) ∧
    (∀ (q : RequestQueue) (op : QOp), op.isRegister = false →
        akeys (applyOp q op).active ⊆ akeys q.active) := by
  refine ⟨?_, ?_, ?_⟩
  · intro mc mq ops
    exact applyOps_length_le ops (RequestQueue.init mc mq) (by simp [RequestQueue.init])
  · intro q rid sk d now h
    unfold RequestQueue.register_active_recording
    rw [if_pos h.ge]
  · intro q op hop
    cases op with
    | register rid sk d now => simp [QOp.isRegister] at hop
    | unregister rid =>
      intro k hk
      rcases List.mem_map.mp hk with ⟨p, hp, hpk⟩
      exact hpk ▸ List.mem_map_of_mem _ (mem_aerase hp)
    | progress rid step kw now =>
      simp only [applyOp, RequestQueue.update_recording_progress]
      split
      · show akeys (amodify rid _ q.active) ⊆ akeys q.active
        rw [akeys_amodify]
        exact fun k hk => hk
      · exact fun k hk => hk
    | enqueue =>
      simp only [applyOp, RequestQueue.enqueue_request]
      split <;> exact fun k hk => hk
    | dequeue =>
      simp only [applyOp, RequestQueue.dequeue_request]
      split <;> exact fun k hk => hk

/-- Witness for C7 at concrete inputs: a third registration into a
two-slot queue is refused, the bound holds, and unregistration only removes
keys. -/
theorem C7_registry_bounded_witness :
    (applyOps [QOp.register "r1" "morning-show" (DurationVal.intD 30) 0,
               QOp.register "r2" "morning-show" (DurationVal.intD 30) 0,
               QOp.register "r3" "morning-show" (DurationVal.intD 30) 0]
        (RequestQueue.init 2 4)).active.length ≤ 2 ∧
    qFull3.register_active_recording "r9" "morning-show" (DurationVal.intD 10) 0
      = (false, qFull3) ∧
    akeys (applyOp qFull3 (QOp.unregister "a")).active ⊆ akeys qFull3.active :=
  ⟨C7_registry_bounded.1 2 4 _,
   C7_registry_bounded.2.1 qFull3 "r9" "morning-show" (DurationVal.intD 10) 0 (by decide),
   C7_registry_bounded.2.2 qFull3 (QOp.unregister "a") rfl⟩

/-! ## C8: progress updates are idempotent on `steps_completed` and drop
silently for inactive ids -/

/-- C8: `update_recording_progress` is a no-op when the id is not active
(the call raises nothing and changes nothing); and for an active id of any
reachable queue, after one or more progress calls for the same step name
(with arbitrary keyword metrics each time), `steps_completed` contains that
step exactly once. -/
theorem C8_update_progress :
    (∀ (q : RequestQueue) (rid step : String) (kw : ProgressKw) (now : Nat),
        alookup q.active rid = none →
        q.update_recording_progress rid step kw now = q) ∧
    (∀ (mc mq : Nat) (ops : List QOp) (rid step : String)
        (c : ProgressKw × Nat) (cs : List (ProgressKw × Nat)),
        (alookup (applyOps ops (RequestQueue.init mc mq)).active rid).isSome = true →
        List.count step
          (stepsOf (applyProgressCalls rid step (c :: cs)
            (applyOps ops (RequestQueue.init mc mq))) rid) = 1) := by
  constructor
  · exact update_progress_of_inactive
  · intro mc mq ops rid step c cs hsome
    set q := applyOps ops (RequestQueue.init mc mq) with hq
    rcases Option.isSome_iff_exists.mp hsome with ⟨r, hr⟩
    have hnodup : r.steps_completed.Nodup :=
      stepsNodup_applyOps ops (RequestQueue.init mc mq) (stepsNodup_init mc mq)
        (rid, r) (alookup_mem hr)
    -- effect of the first call
    have h1 := update_progress_lookup q rid step c.1 c.2 r hr
    set S1 : List String :=
      if step ∈ r.steps_completed then r.steps_completed
      else r.steps_completed ++ [step] with hS1
    have hmem : step ∈ S1 := by
      rw [hS1]
      by_cases hs : step ∈ r.steps_completed
      · simp [hs]
      · simp [hs]
    have hcount : S1.count step = 1 := by
      rw [hS1]
      by_cases hs : step ∈ r.steps_completed
      · rw [if_pos hs]
        exact List.count_eq_one_of_mem hnodup hs
      · rw [if_neg hs, List.count_append, List.count_eq_zero.mpr hs]
        simp
    -- the remaining calls leave steps_completed at S1
    have hstable := applyProgressCalls_steps_stable rid step cs
      (q.update_recording_progress rid step c.1 c.2) _ h1 (by simpa using hmem)
    rcases hstable with ⟨r', hr', hsteps⟩
    show List.count step (stepsOf (applyProgressCalls rid step cs
      (q.update_recording_progress rid step c.1 c.2)) rid) = 1
    rw [stepsOf, hr']
    simpa [hsteps] using hcount

/-- Witness for C8 at concrete inputs: a registered id updated three times
with the same step holds the step once; an unknown id leaves the fresh
queue untouched. -/
theorem C8_update_progress_witness :
    (RequestQueue.init 3 6).update_recording_progress "ghost" "validation" {} 0
      = RequestQueue.init 3 6 ∧
    List.count "validation"
      (stepsOf (applyProgressCalls "r1" "validation"
        [({}, 1), ({}, 2), ({}, 3)]
        (applyOps [QOp.register "r1" "morning-show" (DurationVal.intD 30) 0]
          (RequestQueue.init 3 6))) "r1") = 1 :=
  ⟨C8_update_progress.1 (RequestQueue.init 3 6) "ghost" "validation" {} 0 (by decide),
   C8_update_progress.2 3 6 [QOp.register "r1" "morning-show" (DurationVal.intD 30) 0]
     "r1" "validation" ({}, 1) [({}, 2), ({}, 3)] (by decide)⟩

/-! ## C9: threshold alarms are edge-triggered -/

theorem check_thresholds_state (th : Thresholds) (st : AlertStates)
    (m : SampleMetrics) :
    (check_thresholds th st m).1 =
      { cpu := decide (m.cpu_percent > th.cpu)
        memory := decide (m.memory_percent > th.memory)
        disk := decide (m.disk_usage_percent > th.disk) } := by
  unfold check_thresholds
  split_ifs <;> simp_all

theorem check_thresholds_mem (th : Thresholds) (st : AlertStates)
    (m : SampleMetrics) :
    (("cpu_high" ∈ (check_thresholds th st m).2) ↔
      (m.cpu_percent > th.cpu ∧ st.cpu = false)) ∧
    (("cpu_normal" ∈ (check_thresholds th st m).2) ↔
      (¬ m.cpu_percent > th.cpu ∧ st.cpu = true)) ∧
    (("memory_high" ∈ (check_thresholds th st m).2) ↔
      (m.memory_percent > th.memory ∧ st.memory = false)) ∧
    (("memory_normal" ∈ (check_thresholds th st m).2) ↔
      (¬ m.memory_percent > th.memory ∧ st.memory = true)) ∧
    (("disk_high" ∈ (check_thresholds th st m).2) ↔
      (m.disk_usage_percent > th.disk ∧ st.disk = false)) ∧
    (("disk_normal" ∈ (check_thresholds th st m).2) ↔
      (¬ m.disk_usage_percent > th.disk ∧ st.disk = true)) := by
  unfold check_thresholds
  split_ifs <;> simp_all

theorem run_thresholds_length (th : Thresholds) (st : AlertStates)
    (ms : List SampleMetrics) :
    (run_thresholds th st ms).2.length = ms.length := by
  induction ms generalizing st with
  | nil => rfl
  | cons m rest ih =>
    show ((check_thresholds th st m).2 ::
      (run_thresholds th (check_thresholds th st m).1 rest).2).length = rest.length + 1
    simp [ih]

theorem run_thresholds_getD (th : Thresholds) (st : AlertStates)
    (ms : List SampleMetrics) (i : Nat) (d : SampleMetrics)
    (h : i < ms.length) :
    (run_thresholds th st ms).2.getD i [] =
      (check_thresholds th (run_thresholds th st (ms.take i)).1 (ms.getD i d)).2 := by
  induction ms generalizing st i with
  | nil => simp at h
  | cons m rest ih =>
    cases i with
    | zero => rfl
    | succ j =>
      have hj : j < rest.length := by simpa using h
      show ((run_thresholds th (check_thresholds th st m).1 rest).2).getD j [] = _
      rw [ih _ _ hj]
      rfl

theorem run_thresholds_take_succ (th : Thresholds) (st : AlertStates)
    (ms : List SampleMetrics) (i : Nat) (d : SampleMetrics)
    (h : i < ms.length) :
    (run_thresholds th st (ms.take (i + 1))).1 =
      (check_thresholds th (run_thresholds th st (ms.take i)).1 (ms.getD i d)).1 := by
  induction ms generalizing st i with
  | nil => simp at h
  | cons m rest ih =>
    cases i with
    | zero => rfl
    | succ j =>
      have hj : j < rest.length := by simpa using h
      show (run_thresholds th (check_thresholds th st m).1 (rest.take (j + 1))).1 = _
      rw [ih _ _ hj]
      rfl

/-- C9: for every sample sequence, each alarm (cpu, memory, disk) emits its
warning event at sample `i` exactly when the sample exceeds the threshold
while the alarm state before `i` was clear, and its recovery event exactly
when the sample is back at/under the threshold while the alarm was set;
the alarm state before sample `i > 0` is determined by which side of the
threshold sample `i - 1` was on, so consecutive samples on the same side
emit nothing. -/
theorem C9_edge_triggered_alerts (th : Thresholds) (st0 : AlertStates)
    (ms : List SampleMetrics) (i : Nat) (h : i < ms.length) :
    (("cpu_high" ∈ (run_thresholds th st0 ms).2.getD i []) ↔
      ((ms.getD i default).cpu_percent > th.cpu ∧
        (run_thresholds th st0 (ms.take i)).1.cpu = false)) ∧
    (("cpu_normal" ∈ (run_thresholds th st0 ms).2.getD i []) ↔
      (¬ (ms.getD i default).cpu_percent > th.cpu ∧
        (run_thresholds th st0 (ms.take i)).1.cpu = true)) ∧
    (("memory_high" ∈ (run_thresholds th st0 ms).2.getD i []) ↔
      ((ms.getD i default).memory_percent > th.memory ∧
        (run_thresholds th st0 (ms.take i)).1.memory = false)) ∧
    (("memory_normal" ∈ (run_thresholds th st0 ms).2.getD i []) ↔
      (¬ (ms.getD i default).memory_percent > th.memory ∧
        (run_thresholds th st0 (ms.take i)).1.memory = true)) ∧
    (("disk_high" ∈ (run_thresholds th st0 ms).2.getD i []) ↔
      ((ms.getD i default).disk_usage_percent > th.disk ∧
        (run_thresholds th st0 (ms.take i)).1.disk = false)) ∧
    (("disk_normal" ∈ (run_thresholds th st0 ms).2.getD i []) ↔
      (¬ (ms.getD i default).disk_usage_percent > th.disk ∧
        (run_thresholds th st0 (ms.take i)).1.disk = true)) ∧
    (∀ j, j + 1 = i →
      (run_thresholds th st0 (ms.take i)).1 =
        { cpu := decide ((ms.getD j default).cpu_percent > th.cpu)
          memory := decide ((ms.getD j default).memory_percent > th.memory)
          disk := decide ((ms.getD j default).disk_usage_percent > th.disk) }) ∧
    (i = 0 → (run_thresholds th st0 (ms.take i)).1 = st0) := by
  have hev := run_thresholds_getD th st0 ms i default h
  have hmem := check_thresholds_mem th
    (run_thresholds th st0 (ms.take i)).1 (ms.getD i default)
  rw [hev]
  refine ⟨hmem.1, hmem.2.1, hmem.2.2.1, hmem.2.2.2.1, hmem.2.2.2.2.1,
    hmem.2.2.2.2.2, ?_, ?_⟩
  · intro j hj
    have hjlt : j < ms.length := by omega
    rw [← hj, run_thresholds_take_succ th st0 ms j default hjlt,
      check_thresholds_state]
  · intro h0
    rw [h0]
    rfl

/-- Witness for C9 at a concrete trace: three cpu samples 90, 90, 10 against
threshold 80 — warning at sample 0 would fire, and at sample 1 (same side as
sample 0) nothing fires. -/
theorem C9_edge_triggered_alerts_witness :
    (1 < ([⟨90, 50, 50⟩, ⟨90, 50, 50⟩, ⟨10, 50, 50⟩] : List SampleMetrics).length) ∧
    (("cpu_high" ∈ (run_thresholds ⟨80, 85, 90⟩ ⟨false, false, false⟩
        [⟨90, 50, 50⟩, ⟨90, 50, 50⟩, ⟨10, 50, 50⟩]).2.getD 1 []) ↔
      ((([⟨90, 50, 50⟩, ⟨90, 50, 50⟩, ⟨10, 50, 50⟩] :
          List SampleMetrics).getD 1 default).cpu_percent > (80 : ℚ) ∧
        (run_thresholds ⟨80, 85, 90⟩ ⟨false, false, false⟩
          (([⟨90, 50, 50⟩, ⟨90, 50, 50⟩, ⟨10, 50, 50⟩] :
            List SampleMetrics).take 1)).1.cpu = false)) :=
  ⟨by decide,
   (C9_edge_triggered_alerts ⟨80, 85, 90⟩ ⟨false, false, false⟩
     [⟨90, 50, 50⟩, ⟨90, 50, 50⟩, ⟨10, 50, 50⟩] 1 (by decide)).1⟩

/-! ## C2: admission at the concurrency ceiling -/

/-- Counterexample to C2 as stated: with the active count at the ceiling
(3 of 3) but the request queue not full (0 of 10) and resources healthy,
`can_accept_recording` returns `can_accept = true` with no reasons — the
claim requires `can_accept = false` regardless of queue size. -/
theorem C2_counterexample :
    qFull3.active.length = qFull3.max_concurrent ∧
    (can_accept_recording qFull3 rsHealthy "morning-show" 30).can_accept = true ∧
    (can_accept_recording qFull3 rsHealthy "morning-show" 30).reasons = [] := by
  decide

/-- C2 amended: when the active count equals the ceiling AND the request
queue has reached its capacity, `can_accept_recording` returns
`can_accept = false` with a non-empty reasons list, and the active count it
reports is the unchanged registry size (the call only reads the queue). -/
theorem C2_amended_admission_reject (q : RequestQueue) (rs : ResourceSummary)
    (sk : String) (d : ℚ)
    (h1 : q.active.length = q.max_concurrent)
    (h2 : q.queue_size ≥ q.max_queue_size) :
    (can_accept_recording q rs sk d).can_accept = false ∧
    (can_accept_recording q rs sk d).reasons ≠ [] ∧
    (can_accept_recording q rs sk d).queue_status.active_recordings
      = q.active.length := by
  have hslots : (q.get_queue_status).available_slots ≤ 0 := by
    unfold RequestQueue.get_queue_status
    simp only [h1]
    omega
  have hqs : (q.get_queue_status).queue_size ≥ (q.get_queue_status).max_queue_size := h2
  simp only [can_accept_recording]
  split_ifs <;> simp_all [RequestQueue.get_queue_status]

/-- Witness for the amended C2: ceiling reached and queue full. -/
theorem C2_amended_admission_reject_witness :
    (can_accept_recording { qFull3 with queue_size := 10 } rsHealthy
      "morning-show" 30).can_accept = false ∧
    (can_accept_recording { qFull3 with queue_size := 10 } rsHealthy
      "morning-show" 30).reasons ≠ [] ∧
    (can_accept_recording { qFull3 with queue_size := 10 } rsHealthy
      "morning-show" 30).queue_status.active_recordings
      = ({ qFull3 with queue_size := 10 } : RequestQueue).active.length :=
  C2_amended_admission_reject { qFull3 with queue_size := 10 } rsHealthy
    "morning-show" 30 (by decide) (by decide)

/-! ## C4: protocol-not-found / invalid-URL classification -/

/-- C4 is contradicted by the code: `_analyze_ffmpeg_error` computes its
`retryable` flag for the protocol-not-found / invalid-URL family but never
passes it to the `StreamError` constructor, so the raised error carries the
class default `retryable = True`, and `record_stream` keeps retrying after
such a failure (4 attempts at the defaults instead of stopping after 1). -/
theorem C4_protocol_error_retried_eval :
    analyze_ffmpeg_error "Protocol not found" 1
      = { etype := "stream", retryable := true } ∧
    (record_stream 3 5 "http://stream.example/live" 30 true
      (fun _ => ExecOutcome.raises (analyze_ffmpeg_error "Protocol not found" 1))).attempts
      = 4 ∧
    analyze_ffmpeg_error "Invalid URL: bad://x" 1
      = { etype := "stream", retryable := true } := by
  decide

/-! ## C5: retry count and backoff schedule -/

/-- Counterexample to C5 as stated: with the default `max_retries = 3` and
`retry_delay = 5`, a capture whose every attempt raises a retryable error is
tried 4 times in total (`range(max_retries + 1)`), not 3. -/
theorem C5_counterexample :
    record_stream 3 5 "http://stream.example/live" 30 true
      (fun _ => ExecOutcome.raises { etype := "network", retryable := true })
      = { result := false, attempts := 4, sleeps := [5, 10, 20] } := by
  decide

/-- An attempt outcome that raises an error classified retryable. -/
def isRetryRaise (o : ExecOutcome) : Prop :=
  ∃ e, o = ExecOutcome.raises e ∧ e.retryable = true

/-- The backoff sleep performed before attempt `a` (none before the first
attempt). -/
def sleepOf (rd : Nat) (a : Nat) : Option Nat :=
  if a > 0 then some (min (rd * 2 ^ (a - 1)) 60) else none

theorem runAttempts_all_retryable (rd : Nat) (outs : Nat → ExecOutcome) :
    ∀ (n s att : Nat) (sleeps : List Nat),
      (∀ k, k < n → isRetryRaise (outs (s + k))) →
      runAttempts rd outs (List.range' s n) att sleeps =
        { result := false, attempts := att + n,
          sleeps := sleeps ++ (List.range' s n).filterMap (sleepOf rd) } := by
  intro n
  induction n with
  | zero =>
    intro s att sleeps _
    simp [runAttempts, List.range']
  | succ m ih =>
    intro s att sleeps hall
    have h0 := hall 0 (Nat.succ_pos m)
    rw [Nat.add_zero] at h0
    rcases h0 with ⟨e, he, hre⟩
    rw [List.range'_succ]
    simp only [runAttempts, he, hre, if_true]
    rw [ih (s + 1) (att + 1) _ (fun k hk => by
      have := hall (k + 1) (by omega)
      rwa [show s + (k + 1) = s + 1 + k by omega] at this)]
    rw [List.filterMap_cons]
    by_cases hs : s > 0
    · simp only [sleepOf, hs, if_true, if_pos hs]
      rw [StreamRunOut.mk.injEq]
      refine ⟨rfl, by omega, ?_⟩
      rw [List.append_assoc]
      rfl
    · simp only [sleepOf, hs, if_false, if_neg hs]
      rw [StreamRunOut.mk.injEq]
      exact ⟨rfl, by omega, rfl⟩

theorem runAttempts_stop_nonretryable (rd : Nat) (outs : Nat → ExecOutcome)
    (e : FfmpegErr) (hre : e.retryable = false) :
    ∀ (m n s att : Nat) (sleeps : List Nat),
      m < n →
      (∀ k, k < m → isRetryRaise (outs (s + k))) →
      outs (s + m) = ExecOutcome.raises e →
      (runAttempts rd outs (List.range' s n) att sleeps).result = false ∧
      (runAttempts rd outs (List.range' s n) att sleeps).attempts = att + m + 1 := by
  intro m
  induction m with
  | zero =>
    intro n s att sleeps hn hall hm
    obtain ⟨n', rfl⟩ : ∃ n', n = n' + 1 := ⟨n - 1, by omega⟩
    rw [Nat.add_zero] at hm
    rw [List.range'_succ]
    simp only [runAttempts, hm, hre, if_false]
    exact ⟨rfl, rfl⟩
  | succ m' ih =>
    intro n s att sleeps hn hall hm
    obtain ⟨n', rfl⟩ : ∃ n', n = n' + 1 := ⟨n - 1, by omega⟩
    have h0 := hall 0 (Nat.succ_pos m')
    rw [Nat.add_zero] at h0
    rcases h0 with ⟨e0, he0, hre0⟩
    rw [List.range'_succ]
    simp only [runAttempts, he0, hre0, if_true]
    have hrec := ih n' (s + 1) (att + 1)
      (if s > 0 then sleeps ++ [min (rd * 2 ^ (s - 1)) 60] else sleeps)
      (by omega)
      (fun k hk => by
        have := hall (k + 1) (by omega)
        rwa [show s + (k + 1) = s + 1 + k by omega] at this)
      (by rwa [show s + 1 + m' = s + (m' + 1) by omega])
    refine ⟨hrec.1, ?_⟩
    rw [hrec.2]
    omega

theorem filterMap_sleepOf_ge_one (rd : Nat) :
    ∀ (m s : Nat), 1 ≤ s →
      (List.range' s m).filterMap (sleepOf rd) =
        (List.range' s m).map (fun a => min (rd * 2 ^ (a - 1)) 60) := by
  intro m
  induction m with
  | zero => intro s _; rfl
  | succ m' ih =>
    intro s hs
    rw [List.range'_succ, List.filterMap_cons, List.map_cons]
    have : sleepOf rd s = some (min (rd * 2 ^ (s - 1)) 60) := by
      simp [sleepOf]
      omega
    rw [this, ih (s + 1) (by omega)]

theorem filterMap_sleepOf_range (rd mr : Nat) :
    (List.range' 0 (mr + 1)).filterMap (sleepOf rd) =
      (List.range mr).map (fun i => min (rd * 2 ^ i) 60) := by
  rw [List.range'_succ, List.filterMap_cons]
  have h0 : sleepOf rd 0 = none := by simp [sleepOf]
  rw [h0, filterMap_sleepOf_ge_one rd mr 1 (le_refl 1),
    List.range'_eq_map_range, List.map_map]
  apply List.map_congr_left
  intro i _
  show min (rd * 2 ^ (1 + i - 1)) 60 = min (rd * 2 ^ i) 60
  rw [Nat.add_sub_cancel_left]

/-- C5 amended: for a valid url and duration, with every attempt failing via
an error classified retryable, `record_stream` performs
`max_retries + 1 = 4` attempts in total at the defaults (1 initial try plus
`max_retries` retries), sleeping `min(retry_delay * 2^(k-1), 60)` seconds
before the k-th retry, then returns false; and after an attempt that raises
an error classified non-retryable it makes no further attempt. -/
theorem C5_amended_retry_policy (max_retries retry_delay : Nat) (url : String)
    (dm : Int) (outcomes : Nat → ExecOutcome)
    (hurl : ("http://".data.isPrefixOf url.data ||
      "https://".data.isPrefixOf url.data) = true)
    (hdm1 : 0 < dm) (hdm2 : dm ≤ 480) :
    ((∀ k, k ≤ max_retries → isRetryRaise (outcomes k)) →
      record_stream max_retries retry_delay url dm true outcomes =
        { result := false, attempts := max_retries + 1,
          sleeps := (List.range max_retries).map
            (fun i => min (retry_delay * 2 ^ i) 60) }) ∧
    (∀ j e, j ≤ max_retries →
      (∀ k, k < j → isRetryRaise (outcomes k)) →
      outcomes j = ExecOutcome.raises e → e.retryable = false →
      (record_stream max_retries retry_delay url dm true outcomes).result = false ∧
      (record_stream max_retries retry_delay url dm true outcomes).attempts = j + 1) := by
  have hdur : ¬(dm ≤ 0 ∨ dm > 480) := by omega
  have h1 : (!("http://".data.isPrefixOf url.data ||
      "https://".data.isPrefixOf url.data)) = false := by
    rw [hurl]
    rfl
  have hvalid : record_stream max_retries retry_delay url dm true outcomes =
      runAttempts retry_delay outcomes (List.range' 0 (max_retries + 1)) 0 [] := by
    unfold record_stream
    rw [h1, if_neg Bool.false_ne_true, if_neg hdur]
    simp only [Bool.not_true]
    rw [if_neg Bool.false_ne_true, List.range_eq_range']
  constructor
  · intro hall
    rw [hvalid, runAttempts_all_retryable retry_delay outcomes (max_retries + 1) 0 0 []
      (fun k hk => by simpa using hall k (by omega))]
    rw [filterMap_sleepOf_range]
    simp
  · intro j e hj hbefore hout hret
    rw [hvalid]
    have := runAttempts_stop_nonretryable retry_delay outcomes e hret j
      (max_retries + 1) 0 0 [] (by omega)
      (fun k hk => by simpa using hbefore k hk) (by simpa using hout)
    refine ⟨this.1, ?_⟩
    rw [this.2]
    omega

/-- Witness for the amended C5 at the defaults (`max_retries = 3`,
`retry_delay = 5`): 4 attempts with sleeps 5, 10, 20. -/
theorem C5_amended_retry_policy_witness :
    record_stream 3 5 "http://stream.example/live" 30 true
      (fun _ => ExecOutcome.raises { etype := "network", retryable := true }) =
      { result := false, attempts := 3 + 1,
        sleeps := (List.range 3).map (fun i => min (5 * 2 ^ i) 60) } :=
  (C5_amended_retry_policy 3 5 "http://stream.example/live" 30
    (fun _ => ExecOutcome.raises { etype := "network", retryable := true })
    (by decide) (by decide) (by decide)).1
    (fun k _ => ⟨{ etype := "network", retryable := true }, rfl, rfl⟩)

/-! ## Lemmas about validation and `record_show` -/

/-- A `duration_minutes` value outside the accepted domain: not a Python
`int`, or an `int` outside `[1, 480]`. -/
def invalidDur (d : DurationVal) : Prop :=
  (∃ q, d = DurationVal.floatD q) ∨
  (∃ n, d = DurationVal.intD n ∧ (n ≤ 0 ∨ 480 < n))

theorem register_at_capacity (q : RequestQueue) (rid sk : String)
    (d : DurationVal) (now : Nat) (h : q.active.length ≥ q.max_concurrent) :
    q.register_active_recording rid sk d now = (false, q) := by
  unfold RequestQueue.register_active_recording
  rw [if_pos h]

theorem validate_error_of_invalid (mc : Nat) (legacy : List (String × LegacyRec))
    (env : RecEnv) (rid sk : String) (d : DurationVal) (hd : invalidDur d) :
    ∃ e, validate_and_register_recording mc legacy env rid sk d = Except.error e := by
  rcases hd with ⟨qv, rfl⟩ | ⟨n, rfl, hn⟩
  · unfold validate_and_register_recording
    by_cases h1 : legacy.length ≥ mc
    · rw [if_pos h1]
      exact ⟨_, rfl⟩
    · rw [if_neg h1]
      by_cases h2 : (!env.config_loaded) = true
      · rw [if_pos h2]
        exact ⟨_, rfl⟩
      · rw [if_neg h2]
        cases hshow : env.getShow sk with
        | none => exact ⟨_, rfl⟩
        | some cfg =>
          simp only []
          cases hst : env.getStation cfg.station with
          | none => exact ⟨_, rfl⟩
          | some url =>
            simp only []
            exact ⟨_, rfl⟩
  · unfold validate_and_register_recording
    by_cases h1 : legacy.length ≥ mc
    · rw [if_pos h1]
      exact ⟨_, rfl⟩
    · rw [if_neg h1]
      by_cases h2 : (!env.config_loaded) = true
      · rw [if_pos h2]
        exact ⟨_, rfl⟩
      · rw [if_neg h2]
        cases hshow : env.getShow sk with
        | none => exact ⟨_, rfl⟩
        | some cfg =>
          simp only []
          cases hst : env.getStation cfg.station with
          | none => exact ⟨_, rfl⟩
          | some url =>
            simp only []
            split_ifs with ha hb hc hdk <;>
              first
                | exact ⟨_, rfl⟩
                | (rcases hn with hn | hn <;> omega)

theorem validate_concurrency_error (mc : Nat) (legacy : List (String × LegacyRec))
    (env : RecEnv) (rid sk : String) (d : DurationVal)
    (h : legacy.length ≥ mc) :
    validate_and_register_recording mc legacy env rid sk d =
      Except.error
        { eclass := "ConcurrencyError", step := "concurrency_check", retryable := true } := by
  unfold validate_and_register_recording
  rw [if_pos h]

theorem validate_ok (mc : Nat) (legacy : List (String × LegacyRec))
    (env : RecEnv) (rid sk : String) (cfg : ShowConfig) (url : String) (n : Int)
    (hlen : legacy.length < mc)
    (hloaded : env.config_loaded = true)
    (hshow : env.getShow sk = some cfg)
    (hst : env.getStation cfg.station = some url)
    (hn1 : 0 < n) (hn2 : n ≤ 480)
    (hwr : env.work_dir_writable = true)
    (hdisk : diskCritical env.disk_free = false) :
    validate_and_register_recording mc legacy env rid sk (DurationVal.intD n) =
      Except.ok (ainsert rid { show_key := sk, duration := n } legacy, cfg, url) := by
  unfold validate_and_register_recording
  rw [if_neg (by omega), if_neg (by rw [hloaded]; exact Bool.false_ne_true)]
  simp only [hshow, hst]
  rw [if_neg (by omega), if_neg (by omega),
    if_neg (by rw [hwr]; exact Bool.false_ne_true),
    if_neg (by rw [hdisk]; exact Bool.false_ne_true)]

/-- Every outcome of `record_show` is one of: success; admission rejection
(`error_step = "resource_check"`, no retention); or a handled failure with
`temp_files_retained = true`. -/
theorem record_show_outcome (s : ServiceState) (env : RecEnv)
    (rid sk : String) (d : DurationVal) :
    (record_show s env rid sk d).1.success = true ∨
    ((record_show s env rid sk d).1.error_step = some "resource_check" ∧
      (record_show s env rid sk d).1.temp_files_retained = false) ∨
    (record_show s env rid sk d).1.temp_files_retained = true := by
  simp only [record_show]
  repeat
    first
      | exact Or.inr (Or.inl ⟨rfl, rfl⟩)
      | exact Or.inr (Or.inr rfl)
      | exact Or.inl rfl
      | split

/-! ## C1: failure implies retention, except admission rejection -/

/-- Counterexample to C1 as stated: a request rejected at admission
(`error_step = "resource_check"`) returns `success = false` with
`temp_files_retained = false`. -/
theorem C1_counterexample :
    (record_show sRejecting envOk "rid1" "morning-show" (DurationVal.intD 30)).1.success
      = false ∧
    (record_show sRejecting envOk "rid1" "morning-show"
      (DurationVal.intD 30)).1.temp_files_retained = false ∧
    (record_show sRejecting envOk "rid1" "morning-show"
      (DurationVal.intD 30)).1.error_step = some "resource_check" := by
  decide

/-- C1 amended: for every outcome of `record_show` other than admission
rejection, `success = false` implies `temp_files_retained = true`; an
admission-rejected result carries `error_step = "resource_check"` (and no
retention, as no temp file was created). -/
theorem C1_amended_retention (s : ServiceState) (env : RecEnv)
    (rid sk : String) (d : DurationVal)
    (h : (record_show s env rid sk d).1.success = false) :
    (record_show s env rid sk d).1.error_step = some "resource_check" ∨
    (record_show s env rid sk d).1.temp_files_retained = true := by
  rcases record_show_outcome s env rid sk d with hs | ⟨he, _⟩ | ht
  · rw [h] at hs
    exact absurd hs Bool.false_ne_true
  · exact Or.inl he
  · exact Or.inr ht

/-- Witness for the amended C1: a validation failure (duration 500) retains
temp state. -/
theorem C1_amended_retention_witness :
    (record_show s0 envOk "rid1" "morning-show" (DurationVal.intD 500)).1.error_step
      = some "resource_check" ∨
    (record_show s0 envOk "rid1" "morning-show"
      (DurationVal.intD 500)).1.temp_files_retained = true :=
  C1_amended_retention s0 envOk "rid1" "morning-show" (DurationVal.intD 500) (by decide)

/-! ## C3: statistics bookkeeping -/

/-- C3 is contradicted by the code: the failure handlers inside
`record_show` return the result instead of re-raising, so
`_recording_context` always resumes normally and increments
`successful_recordings` even when the workflow failed;
`failed_recordings` stays 0. Here a request with duration 500 fails
validation (`success = false`) yet the statistics become
`total = 1, successful = 1, failed = 0`. -/
theorem C3_stats_bug_eval :
    (record_show s0 envOk "rid1" "morning-show" (DurationVal.intD 500)).1.success
      = false ∧
    (record_show s0 envOk "rid1" "morning-show" (DurationVal.intD 500)).2.1.stats
      = { total_recordings := 1, successful_recordings := 1,
          failed_recordings := 0 } := by
  decide

/-! ## C6: invalid durations fail validation before any capture -/

/-- C6: for every admitted request whose duration is non-integer or outside
`[1, 480]`, `record_show` fails with a Validation-class error
(`error_details.error_type = "ValidationError"`, `error_step = "validation"`,
the step under which the call-site wrapper re-raises every validation
failure), the stream recorder is never invoked, and no entry for the
recording is present in the legacy active-recordings registry afterwards. -/
theorem C6_invalid_duration_validation (s : ServiceState) (env : RecEnv)
    (rid sk : String) (d : DurationVal)
    (hd : invalidDur d)
    (hacc : (can_accept_recording s.perf env.summary sk d.toRat).can_accept = true)
    (hfresh : alookup s.legacy rid = none) :
    (record_show s env rid sk d).1.success = false ∧
    (record_show s env rid sk d).1.error_class = some "ValidationError" ∧
    (record_show s env rid sk d).1.error_step = some "validation" ∧
    (record_show s env rid sk d).2.2 = false ∧
    alookup (record_show s env rid sk d).2.1.legacy rid = none := by
  rcases validate_error_of_invalid s.max_concurrent_recordings s.legacy env rid sk d hd
    with ⟨e, he⟩
  simp only [record_show, hacc, Bool.not_true, Bool.false_eq_true, if_false, he]
  refine ⟨by trivial, by trivial, by trivial, by trivial, ?_⟩
  simp only [finishContext]
  rw [aerase_eq_of_alookup_none _ _ hfresh]
  exact hfresh

/-- Witness for C6: duration 500 on a fresh service with a valid show. -/
theorem C6_invalid_duration_validation_witness :
    (record_show s0 envOk "rid1" "morning-show" (DurationVal.intD 500)).1.success
      = false ∧
    (record_show s0 envOk "rid1" "morning-show" (DurationVal.intD 500)).1.error_class
      = some "ValidationError" ∧
    (record_show s0 envOk "rid1" "morning-show" (DurationVal.intD 500)).1.error_step
      = some "validation" ∧
    (record_show s0 envOk "rid1" "morning-show" (DurationVal.intD 500)).2.2 = false ∧
    alookup (record_show s0 envOk "rid1" "morning-show"
      (DurationVal.intD 500)).2.1.legacy "rid1" = none :=
  C6_invalid_duration_validation s0 envOk "rid1" "morning-show" (DurationVal.intD 500)
    (Or.inr ⟨500, rfl, Or.inr (by omega)⟩) (by decide) rfl

/-! ## C10: the performance-monitor registration result is ignored -/

/-- Whatever the pipeline does, `record_show` leaves the performance-monitor
queue unchanged whenever the id is absent from it and its registry is at
capacity: the discarded `register_active_recording` refuses without side
effect, every `update_recording_progress` for the id is dropped, and the
final unregistration removes nothing. -/
theorem record_show_perf_untouched (s : ServiceState) (env : RecEnv)
    (rid sk : String) (d : DurationVal)
    (hlook : alookup s.perf.active rid = none)
    (hfullp : s.perf.active.length ≥ s.perf.max_concurrent) :
    (record_show s env rid sk d).2.1.perf = s.perf := by
  simp only [record_show]
  repeat' split
  all_goals
    simp [finishContext, RequestQueue.unregister_active_recording,
      register_at_capacity s.perf rid sk d env.now hfullp,
      update_progress_of_inactive, aerase_eq_of_alookup_none, hlook]

/-- After a successful validation, the pipeline always reaches the
stream-recording step: the capture call is made on every remaining path. -/
theorem record_show_capture_of_validate_ok (s : ServiceState) (env : RecEnv)
    (rid sk : String) (d : DurationVal)
    (L : List (String × LegacyRec)) (cfg : ShowConfig) (url : String)
    (hacc : (can_accept_recording s.perf env.summary sk d.toRat).can_accept = true)
    (hval : validate_and_register_recording s.max_concurrent_recordings s.legacy env
      rid sk d = Except.ok (L, cfg, url)) :
    (record_show s env rid sk d).2.2 = true := by
  simp only [record_show, hacc, Bool.not_true, Bool.false_eq_true, if_false, hval]
  repeat' split
  all_goals rfl

/-- C10: `record_show` discards the boolean returned by
`register_active_recording`. For an admitted request arriving while the
performance-monitor registry is already at `max_concurrent`, the refused
registration has no effect, the pipeline still runs (the capture call is
made), and the performance-monitor queue is identical afterwards — its
progress updates were silently dropped. The ceiling actually enforced on
pipeline execution is the legacy-registry check inside validation: when the
legacy registry is at its ceiling, the pipeline is blocked before any
capture with a validation failure. -/
theorem C10_register_result_ignored :
    (∀ (s : ServiceState) (env : RecEnv) (rid sk : String) (n : Int)
        (cfg : ShowConfig) (url : String),
      (can_accept_recording s.perf env.summary sk
        (DurationVal.intD n).toRat).can_accept = true →
      s.perf.active.length = s.perf.max_concurrent →
      alookup s.perf.active rid = none →
      s.legacy.length < s.max_concurrent_recordings →
      env.config_loaded = true →
      env.getShow sk = some cfg →
      env.getStation cfg.station = some url →
      0 < n → n ≤ 480 →
      env.work_dir_writable = true →
      diskCritical env.disk_free = false →
      (s.perf.register_active_recording rid sk (DurationVal.intD n) env.now
          = (false, s.perf) ∧
        (record_show s env rid sk (DurationVal.intD n)).2.2 = true ∧
        (record_show s env rid sk (DurationVal.intD n)).2.1.perf = s.perf)) ∧
    (∀ (s : ServiceState) (env : RecEnv) (rid sk : String) (d : DurationVal),
      (can_accept_recording s.perf env.summary sk d.toRat).can_accept = true →
      s.legacy.length ≥ s.max_concurrent_recordings →
      ((record_show s env rid sk d).2.2 = false ∧
        (record_show s env rid sk d).1.success = false ∧
        (record_show s env rid sk d).1.error_step = some "validation")) := by
  constructor
  · intro s env rid sk n cfg url hacc hfull hlook hlen hloaded hshow hst hn1 hn2 hwr hdisk
    refine ⟨register_at_capacity s.perf rid sk (DurationVal.intD n) env.now hfull.ge, ?_, ?_⟩
    · exact record_show_capture_of_validate_ok s env rid sk (DurationVal.intD n)
        _ cfg url hacc
        (validate_ok s.max_concurrent_recordings s.legacy env rid sk cfg url n
          hlen hloaded hshow hst hn1 hn2 hwr hdisk)
    · exact record_show_perf_untouched s env rid sk (DurationVal.intD n) hlook hfull.ge
  · intro s env rid sk d hacc hlegacy
    have hval := validate_concurrency_error s.max_concurrent_recordings s.legacy env
      rid sk d hlegacy
    simp only [record_show, hacc, Bool.not_true, Bool.false_eq_true, if_false, hval]
    exact ⟨by trivial, by trivial, by trivial⟩

/-- Witness for C10: the performance-monitor registry holds 3 of 3 while the
queue is empty, so admission accepts; the pipeline runs; the registry is
unchanged. Part 2 at a service whose legacy registry is at a zero ceiling. -/
theorem C10_register_result_ignored_witness :
    (sPerfFull.perf.register_active_recording "rid1" "morning-show"
        (DurationVal.intD 30) envOk.now = (false, sPerfFull.perf) ∧
      (record_show sPerfFull envOk "rid1" "morning-show"
        (DurationVal.intD 30)).2.2 = true ∧
      (record_show sPerfFull envOk "rid1" "morning-show"
        (DurationVal.intD 30)).2.1.perf = sPerfFull.perf) ∧
    ((record_show { s0 with max_concurrent_recordings := 0 } envOk "rid2"
        "morning-show" (DurationVal.intD 30)).2.2 = false ∧
      (record_show { s0 with max_concurrent_recordings := 0 } envOk "rid2"
        "morning-show" (DurationVal.intD 30)).1.success = false ∧
      (record_show { s0 with max_concurrent_recordings := 0 } envOk "rid2"
        "morning-show" (DurationVal.intD 30)).1.error_step = some "validation") :=
  ⟨C10_register_result_ignored.1 sPerfFull envOk "rid1" "morning-show" 30
    { station := "st1", remote_directory := "/remote/morning" }
    "http://stream.example/live" (by decide) (by decide) (by decide) (by decide)
    rfl (by decide) (by decide) (by decide) (by decide) rfl (by decide),
   C10_register_result_ignored.2 { s0 with max_concurrent_recordings := 0 } envOk
    "rid2" "morning-show" (DurationVal.intD 30) (by decide) (by decide)⟩

end RadioRec
